import Mathlib

/-!
# Shallow embedding of the nextauth-simple authentication core

This development embeds the credential/session/token lifecycle of the
nextauth-simple library: user registration and login (`src/auth.ts`),
session resolution (`src/session.ts`), password reset
(`src/features/password/index.ts`), magic-URL login
(`src/features/magicUrl/index.ts`), TOTP two-factor authentication
(`src/features/twoFactor/index.ts`, `utils.ts`, `auth.ts`) and the RBAC
permission resolver (`src/features/rbac/index.ts`).

The relational store is modelled as lists of rows; `select … limit 1`
becomes `List.find?`, `delete … where` becomes `List.filter`, and
`update … where` becomes `List.map`.  JavaScript strings are modelled as
`List Char` (`Str`), with `toLowerCase` as per-character ASCII lowering.
Wall-clock time (`new Date()`) is an explicit `now : Nat` parameter
(milliseconds); each embedded operation receives one `now` for all its
`new Date()` calls.  External collaborators are parameters: the bcrypt
hash and compare functions (`hashFn : Str → Str`,
`compareFn : Str → Str → Bool`), the otplib TOTP verifier
(`totpVerify : Str → Str → Bool`), the email sender's outcome
(`emailSent : Bool`), and the `crypto.randomUUID` / `crypto.randomBytes`
outputs (fresh-id and fresh-token arguments).  Error messages stay as
Lean `String` literals since the code only ever constructs and compares
them whole.
-/

namespace NextAuthSimple

/-- JavaScript strings, modelled as character lists. -/
abbrev Str := List Char

/-- The `String.prototype.toLowerCase()`, restricted to its ASCII action,
which is all the stored emails exercise. -/
def jsToLower (s : Str) : Str := s.map Char.toLower

/-- JavaScript `x || d` on an optional numeric config field: `undefined`
and `0` are falsy, so both fall back to the default. -/
def jsOr (x : Option Nat) (d : Nat) : Nat :=
  match x with
  | none => d
  | some n => if n = 0 then d else n

/-- Minutes to milliseconds, for token expiry
(`expiresAt.setMinutes(getMinutes + m)`). -/
def minutesToMs (m : Nat) : Nat := m * 60000

/-- Days to milliseconds, for session expiry (`expiresAt.setDate(getDate + days)`). -/
def daysToMs (d : Nat) : Nat := d * 86400000

/-! ## Data model (`src/types.ts` and the feature `db/schema.ts` files) -/

/-- A `users` table row (`usersTable`): id, email, bcrypt password hash,
timestamps. -/
structure User where
  id : Str
  email : Str
  password : Str
  createdAt : Nat
  updatedAt : Nat
deriving Repr, DecidableEq

/-- The user object returned to callers: the TS code strips the `password`
key by destructuring (`const { password: _, ...userWithoutPassword }`), so
the returned record has no password field at all. -/
structure PublicUser where
  id : Str
  email : Str
  createdAt : Nat
  updatedAt : Nat
deriving Repr, DecidableEq

/-- Drop the password field, as the TS destructuring does. -/
def User.toPublic (u : User) : PublicUser :=
  ⟨u.id, u.email, u.createdAt, u.updatedAt⟩

/-- A `sessions` table row: id, userId, opaque bearer token, expiry. -/
structure Session where
  id : Str
  userId : Str
  token : Str
  expiresAt : Nat
  createdAt : Nat
  updatedAt : Nat
deriving Repr, DecidableEq

/-- The session object returned to callers; the TS code rebuilds it
field-by-field without the `token`. -/
structure PublicSession where
  id : Str
  userId : Str
  expiresAt : Nat
  createdAt : Nat
  updatedAt : Nat
deriving Repr, DecidableEq

/-- Drop the token field, as the TS return objects do. -/
def Session.toPublic (s : Session) : PublicSession :=
  ⟨s.id, s.userId, s.expiresAt, s.createdAt, s.updatedAt⟩

/-- A `password_reset_tokens` row (`passwordResetTokensTable`). -/
structure ResetToken where
  id : Str
  userId : Str
  token : Str
  expiresAt : Nat
  createdAt : Nat
  usedAt : Option Nat
deriving Repr, DecidableEq

/-- A `magic_url_tokens` row (`magicUrlTokensTable`). -/
structure MagicToken where
  id : Str
  email : Str
  token : Str
  expiresAt : Nat
  createdAt : Nat
  usedAt : Option Nat
  callbackUrl : Str
deriving Repr, DecidableEq

/-- A `users_two_factor` row (`usersTwoFactorTable`): TOTP secret, enabled
flag, JSON array of hashed recovery codes (modelled as the decoded list). -/
structure TwoFactorSetup where
  userId : Str
  secret : Str
  enabled : Bool
  backupCodes : List Str
  verifiedAt : Option Nat
  createdAt : Nat
  updatedAt : Nat
deriving Repr, DecidableEq

/-- A `two_factor_challenges` row (`twoFactorChallengesTable`). -/
structure Challenge where
  id : Str
  userId : Str
  token : Str
  expiresAt : Nat
  createdAt : Nat
deriving Repr, DecidableEq

/-- A `roles` row (`rolesTable`). -/
structure Role where
  id : Str
  name : Str
  description : Str
  permissions : List Str
  createdAt : Nat
  updatedAt : Nat
deriving Repr, DecidableEq

/-- A `user_roles` row (`userRolesTable`). -/
structure UserRole where
  id : Str
  userId : Str
  roleId : Str
  createdAt : Nat
  updatedAt : Nat
deriving Repr, DecidableEq

/-- The relational store: one list of rows per table used by the claims. -/
structure Db where
  users : List User := []
  sessions : List Session := []
  resetTokens : List ResetToken := []
  magicTokens : List MagicToken := []
  twoFactorSetups : List TwoFactorSetup := []
  challenges : List Challenge := []
  roles : List Role := []
  userRoles : List UserRole := []
deriving Repr, DecidableEq

/-! ## Result shapes (`AuthResult` and the feature result types) -/

/-- The `AuthResult` from `src/types.ts`, extended with the optional
`requiresTwoFactor` / `challengeToken` keys added by
`loginUserWithTwoFactor` (absent keys are modelled as `false` / `none`). -/
structure AuthResult where
  success : Bool
  error : Option String := none
  user : Option PublicUser := none
  session : Option PublicSession := none
  requiresTwoFactor : Bool := false
  challengeToken : Option Str := none
deriving Repr, DecidableEq

/-- The `PasswordResetRequestResult` / `MagicUrlLoginResult` shape:
`{ success, error?, emailSent? }`. -/
structure RequestResult where
  success : Bool
  error : Option String := none
  emailSent : Option Bool := none
deriving Repr, DecidableEq

/-- The `PasswordResetVerifyResult` shape: `{ success, error?, valid?, userId? }`. -/
structure VerifyResult where
  success : Bool
  error : Option String := none
  valid : Option Bool := none
  userId : Option Str := none
deriving Repr, DecidableEq

/-- The `PasswordResetCompleteResult` shape: `{ success, error?, passwordUpdated? }`. -/
structure CompleteResult where
  success : Bool
  error : Option String := none
  passwordUpdated : Option Bool := none
deriving Repr, DecidableEq

/-- The `TwoFactorResult` shape: `{ success, error?, verified?, challengeToken? }`.
The failure arm of `verifyTwoFactorCode` also carries a `userId`. -/
structure TwoFactorResult where
  success : Bool
  error : Option String := none
  verified : Option Bool := none
  challengeToken : Option Str := none
  userId : Option Str := none
deriving Repr, DecidableEq

/-! ## Core auth (`src/auth.ts`) -/

/-- The `validateRegistrationInput`: email must be non-empty, contain `@` and
have length ≥ 5; password must be non-empty with length ≥ 8. -/
def validateRegistrationInput (email password : Str) : Option String :=
  if email = [] ∨ ¬ email.contains '@' ∨ email.length < 5 then
    some "Invalid email address"
  else if password = [] ∨ password.length < 8 then
    some "Password must be at least 8 characters long"
  else
    none

/-- The `validateLoginInput`: email must be non-empty and contain `@`;
password must be non-empty. -/
def validateLoginInput (email password : Str) : Option String :=
  if email = [] ∨ ¬ email.contains '@' then
    some "Invalid email address"
  else if password = [] then
    some "Password is required"
  else
    none

/-- The `createSession` (`src/auth.ts:203`): builds a session row with a fresh
id and token, `expiresAt = now + sessionExpiryDays` (default 30), inserts
it into the sessions table, and returns it.  The cookie write is the
transport layer's concern and carries the same token. -/
def createSession (userId : Str) (sessionExpiryDays : Option Nat)
    (freshId freshToken : Str) (now : Nat) (db : Db) : Session × Db :=
  let days := jsOr sessionExpiryDays 30
  let s : Session :=
    { id := freshId, userId := userId, token := freshToken
      expiresAt := now + daysToMs days, createdAt := now, updatedAt := now }
  (s, { db with sessions := db.sessions ++ [s] })

/-- The `registerUser` (`src/auth.ts:24`): validate, reject when a user with
the lowercased email already exists, otherwise insert the user with
`password := hashFn password` and create a session.  The returned user is
the password-free projection. -/
def registerUser (email password : Str)
    (hashFn : Str → Str) (sessionExpiryDays : Option Nat)
    (freshUserId freshSessionId freshSessionToken : Str)
    (now : Nat) (db : Db) : AuthResult × Db :=
  match validateRegistrationInput email password with
  | some e => ({ success := false, error := some e }, db)
  | none =>
    let emailLc := jsToLower email
    match db.users.find? (fun u => u.email = emailLc) with
    | some _ => ({ success := false, error := some "User already exists" }, db)
    | none =>
      let hashed := hashFn password
      let newUser : User :=
        { id := freshUserId, email := emailLc, password := hashed
          createdAt := now, updatedAt := now }
      let db₁ := { db with users := db.users ++ [newUser] }
      let (s, db₂) :=
        createSession freshUserId sessionExpiryDays freshSessionId freshSessionToken now db₁
      ({ success := true, user := some newUser.toPublic, session := some s.toPublic }, db₂)

/-- The `loginUser` (`src/auth.ts:101`): validate, look the user up by
lowercased email, compare the password with the stored hash, then create a
session.  Lookup failure and hash mismatch return the same error. -/
def loginUser (email password : Str)
    (compareFn : Str → Str → Bool) (sessionExpiryDays : Option Nat)
    (freshSessionId freshSessionToken : Str)
    (now : Nat) (db : Db) : AuthResult × Db :=
  match validateLoginInput email password with
  | some e => ({ success := false, error := some e }, db)
  | none =>
    match db.users.find? (fun u => u.email = jsToLower email) with
    | none => ({ success := false, error := some "Invalid email or password" }, db)
    | some user =>
      if ¬ compareFn password user.password then
        ({ success := false, error := some "Invalid email or password" }, db)
      else
        let (s, db₁) :=
          createSession user.id sessionExpiryDays freshSessionId freshSessionToken now db
        ({ success := true, user := some user.toPublic, session := some s.toPublic }, db₁)

/-! ## Two-factor authentication
(`src/features/twoFactor/index.ts`, `utils.ts`, `auth.ts`) -/

/-- The `isTwoFactorEnabled` via `getTwoFactorStatus`: the user's setup row
exists and its `enabled` flag is true. -/
def isTwoFactorEnabled (userId : Str) (db : Db) : Bool :=
  match db.twoFactorSetups.find? (fun s => s.userId = userId) with
  | some s => s.enabled
  | none => false

/-- The `createTwoFactorChallenge` (`twoFactor/index.ts:183`): generate a
challenge token, compute `expiresAt = now + challengeExpiryMinutes`
(default 5), and insert the challenge row.  Note the source inserts
without deleting any prior challenge for the user. -/
def createTwoFactorChallenge (userId : Str) (enabled : Bool)
    (challengeExpiryMinutes : Option Nat) (freshId freshToken : Str)
    (now : Nat) (db : Db) : TwoFactorResult × Db :=
  if ¬ enabled then
    ({ success := false, error := some "Two-factor authentication is not enabled" }, db)
  else
    let expiryMinutes := jsOr challengeExpiryMinutes 5
    let c : Challenge :=
      { id := freshId, userId := userId, token := freshToken
        expiresAt := now + minutesToMs expiryMinutes, createdAt := now }
    ({ success := true, challengeToken := some freshToken },
     { db with challenges := db.challenges ++ [c] })

/-- The `loginUserWithTwoFactor` (`twoFactor/auth.ts:13`): run the core
`loginUser` first (which persists a session on credential success), then,
when the user's enrollment is enabled, create a challenge and return a
`requiresTwoFactor` result that carries the challenge token and no
session key. -/
def loginUserWithTwoFactor (email password : Str)
    (compareFn : Str → Str → Bool)
    (twoFactorFeatureEnabled : Bool)
    (sessionExpiryDays challengeExpiryMinutes : Option Nat)
    (freshSessionId freshSessionToken freshChallengeId freshChallengeToken : Str)
    (now : Nat) (db : Db) : AuthResult × Db :=
  let (basic, db₁) :=
    loginUser email password compareFn sessionExpiryDays freshSessionId freshSessionToken now db
  if ¬ basic.success ∨ basic.user = none then
    (basic, db₁)
  else
    match basic.user with
    | none => (basic, db₁)
    | some u =>
      let twoFactorEnabled := twoFactorFeatureEnabled && isTwoFactorEnabled u.id db₁
      if ¬ twoFactorEnabled then
        (basic, db₁)
      else
        let (chal, db₂) :=
          createTwoFactorChallenge u.id twoFactorFeatureEnabled challengeExpiryMinutes
            freshChallengeId freshChallengeToken now db₁
        if ¬ chal.success then
          ({ basic with requiresTwoFactor := true }, db₂)
        else
          ({ success := true, user := basic.user, requiresTwoFactor := true
             challengeToken := chal.challengeToken }, db₂)

/-- The `code.replace(/[^A-Z0-9]/g, '')` in `verifyRecoveryCode`. -/
def normalizeRecoveryCode (code : Str) : Str :=
  code.filter fun c => ('A' ≤ c ∧ c ≤ 'Z') ∨ ('0' ≤ c ∧ c ≤ '9')

/-- Loop body of `verifyRecoveryCode` (`twoFactor/utils.ts:123`).  The
source computes `isMatch := await hashPassword(normalizedCode,
+hashedCodes[i])` — it re-hashes the submitted code (the numeric coercion
of a stored hash string is `NaN`, which carries no information, so the
second argument is dropped here) and treats the returned hash string as
the match test; a JavaScript string is truthy iff non-empty. -/
def verifyRecoveryCodeAux (hashFn : Str → Str) (normalized : Str) :
    Nat → List Str → Int
  | _, [] => -1
  | i, _ :: rest =>
    if hashFn normalized ≠ [] then (i : Int)
    else verifyRecoveryCodeAux hashFn normalized (i + 1) rest

/-- The `verifyRecoveryCode` (`twoFactor/utils.ts:123`): normalize the code,
then scan the stored hashes with the truthiness test above. -/
def verifyRecoveryCode (hashFn : Str → Str) (code : Str)
    (hashedCodes : List Str) : Int :=
  verifyRecoveryCodeAux hashFn (normalizeRecoveryCode code) 0 hashedCodes

/-- The part of `verifyTwoFactorCode` after the optional challenge-token
check (`twoFactor/index.ts:266` onward): fetch the setup row, require
`enabled`, try TOTP, then fall back to a recovery code, marking the
matched entry `USED` and deleting the challenge row when a token was
supplied. -/
def verifyTwoFactorCodeAfterChallenge (userId code : Str)
    (challengeToken : Option Str)
    (totpVerify : Str → Str → Bool) (hashFn : Str → Str)
    (now : Nat) (db : Db) : TwoFactorResult × Db :=
  match db.twoFactorSetups.find? (fun s => s.userId = userId) with
  | none =>
    ({ success := false, error := some "Two-factor authentication is not set up" }, db)
  | some setup =>
    if ¬ setup.enabled then
      ({ success := false, error := some "Two-factor authentication is not enabled" }, db)
    else if totpVerify setup.secret code then
      let db₁ :=
        match challengeToken with
        | some ct => { db with challenges := db.challenges.filter (fun c => c.token ≠ ct) }
        | none => db
      ({ success := true, verified := some true }, db₁)
    else
      let idx := verifyRecoveryCode hashFn code setup.backupCodes
      if idx ≥ 0 then
        let newCodes := setup.backupCodes.set idx.toNat "USED".toList
        let db₁ :=
          { db with twoFactorSetups := db.twoFactorSetups.map fun (s : TwoFactorSetup) =>
              if s.userId = userId then
                { s with backupCodes := newCodes, updatedAt := now }
              else s }
        let db₂ :=
          match challengeToken with
          | some ct => { db₁ with challenges := db₁.challenges.filter (fun c => c.token ≠ ct) }
          | none => db₁
        ({ success := true, verified := some true }, db₂)
      else
        ({ success := false, error := some "Invalid verification code"
           userId := some userId }, db)

/-- The `verifyTwoFactorCode` (`twoFactor/index.ts:229`): the challenge-token
lookup and expiry check run only when a challenge token is present in the
input; then the code proceeds to the setup/TOTP/recovery checks. -/
def verifyTwoFactorCode (userId code : Str) (challengeToken : Option Str)
    (totpVerify : Str → Str → Bool) (hashFn : Str → Str)
    (enabled : Bool) (now : Nat) (db : Db) : TwoFactorResult × Db :=
  if ¬ enabled then
    ({ success := false, error := some "Two-factor authentication is not enabled" }, db)
  else
    match challengeToken with
    | some ct =>
      match db.challenges.find? (fun c => c.userId = userId ∧ c.token = ct) with
      | none => ({ success := false, error := some "Invalid challenge token" }, db)
      | some challenge =>
        if now > challenge.expiresAt then
          ({ success := false, error := some "Challenge token expired" }, db)
        else
          verifyTwoFactorCodeAfterChallenge userId code challengeToken totpVerify hashFn now db
    | none =>
      verifyTwoFactorCodeAfterChallenge userId code challengeToken totpVerify hashFn now db

/-! ## Password reset (`src/features/password/index.ts`) -/

/-- The `requestPasswordReset` (`password/index.ts:45`): validate the email,
return a bare success when no user matches (anti-enumeration), otherwise
delete every reset token of that user, insert a fresh one, and report the
email sender's outcome. -/
def requestPasswordReset (email : Str) (enabled : Bool)
    (tokenExpiryMinutes : Option Nat) (freshId freshToken : Str)
    (emailSent : Bool) (now : Nat) (db : Db) : RequestResult × Db :=
  if ¬ enabled then
    ({ success := false, error := some "Password reset is not enabled" }, db)
  else if email = [] ∨ ¬ email.contains '@' ∨ email.length < 5 then
    ({ success := false, error := some "Invalid email address" }, db)
  else
    match db.users.find? (fun u => u.email = jsToLower email) with
    | none => ({ success := true, emailSent := some true }, db)
    | some user =>
      let expiryMinutes := jsOr tokenExpiryMinutes 15
      let db₁ :=
        { db with resetTokens := db.resetTokens.filter (fun t => t.userId ≠ user.id) }
      let rt : ResetToken :=
        { id := freshId, userId := user.id, token := freshToken
          expiresAt := now + minutesToMs expiryMinutes, createdAt := now, usedAt := none }
      let db₂ := { db₁ with resetTokens := db₁.resetTokens ++ [rt] }
      if ¬ emailSent then
        ({ success := false, error := some "Failed to send email" }, db₂)
      else
        ({ success := true, emailSent := some true }, db₂)

/-- The `verifyPasswordResetToken` (`password/index.ts:154`): look the user up
by lowercased email, find the token row for that user, then check expiry
before the consumed marker. -/
def verifyPasswordResetToken (token email : Str) (enabled : Bool)
    (now : Nat) (db : Db) : VerifyResult :=
  if ¬ enabled then
    { success := false, error := some "Password reset is not enabled" }
  else
    match db.users.find? (fun u => u.email = jsToLower email) with
    | none => { success := false, error := some "Invalid token" }
    | some user =>
      match db.resetTokens.find? (fun t => t.token = token ∧ t.userId = user.id) with
      | none => { success := false, error := some "Invalid token" }
      | some rt =>
        if now > rt.expiresAt then
          { success := false, error := some "Token has expired" }
        else if rt.usedAt.isSome then
          { success := false, error := some "Token has already been used" }
        else
          { success := true, valid := some true, userId := some user.id }

/-- The `completePasswordReset` (`password/index.ts:226`): validate the new
password, verify the token, overwrite the user's password hash, then mark
every row carrying this token value as used. -/
def completePasswordReset (token email password : Str) (enabled : Bool)
    (minimumPasswordLength : Option Nat) (hashFn : Str → Str)
    (now : Nat) (db : Db) : CompleteResult × Db :=
  if ¬ enabled then
    ({ success := false, error := some "Password reset is not enabled" }, db)
  else
    let minLength := jsOr minimumPasswordLength 8
    if password = [] ∨ password.length < minLength then
      ({ success := false
         error := some ("Password must be at least " ++ toString minLength ++
           " characters long") }, db)
    else
      let v := verifyPasswordResetToken token email enabled now db
      if ¬ (v.success ∧ v.valid = some true) then
        ({ success := false, error := some (v.error.getD "Invalid token") }, db)
      else
        let hashed := hashFn password
        let db₁ :=
          { db with users := db.users.map fun (u : User) =>
              if some u.id = v.userId then
                { u with password := hashed, updatedAt := now }
              else u }
        let db₂ :=
          { db₁ with resetTokens := db₁.resetTokens.map fun (t : ResetToken) =>
              if t.token = token then { t with usedAt := some now } else t }
        ({ success := true, passwordUpdated := some true }, db₂)

/-! ## Magic URL login (`src/features/magicUrl/index.ts`) -/

/-- The `MagicUrlVerifyResult` shape: `{ success, error?, user?, session? }`. -/
structure MagicVerifyResult where
  success : Bool
  error : Option String := none
  user : Option PublicUser := none
  session : Option PublicSession := none
deriving Repr, DecidableEq

/-- The `createMagicUrlLogin` (`magicUrl/index.ts:103`): validate the email,
generate a token with `expiresAt = now + tokenExpiryMinutes` (default 10),
insert the row — the source inserts without deleting any prior token for
the email — and report the email sender's outcome. -/
def createMagicUrlLogin (email : Str) (enabled : Bool)
    (tokenExpiryMinutes : Option Nat) (callbackUrl : Str)
    (freshId freshToken : Str) (emailSent : Bool)
    (now : Nat) (db : Db) : RequestResult × Db :=
  if ¬ enabled then
    ({ success := false, error := some "Magic URL authentication is not enabled" }, db)
  else if email = [] ∨ ¬ email.contains '@' ∨ email.length < 5 then
    ({ success := false, error := some "Invalid email address" }, db)
  else
    let expiryMinutes := jsOr tokenExpiryMinutes 10
    let mt : MagicToken :=
      { id := freshId, email := jsToLower email, token := freshToken
        expiresAt := now + minutesToMs expiryMinutes, createdAt := now
        usedAt := none, callbackUrl := callbackUrl }
    let db₁ := { db with magicTokens := db.magicTokens ++ [mt] }
    if ¬ emailSent then
      ({ success := false, error := some "Failed to send email" }, db₁)
    else
      ({ success := true, emailSent := some true }, db₁)

/-- The `verifyMagicUrlToken` (`magicUrl/index.ts:189`): find the row by token
and lowercased email, check expiry then the consumed marker, mark the row
used by id, find or create the user (a created user stores the random
placeholder `randomPassword` in its password field), and create a
session. -/
def verifyMagicUrlToken (token email : Str) (enabled : Bool)
    (randomPassword freshUserId freshSessionId freshSessionToken : Str)
    (sessionExpiryDays : Option Nat)
    (now : Nat) (db : Db) : MagicVerifyResult × Db :=
  if ¬ enabled then
    ({ success := false, error := some "Magic URL authentication is not enabled" }, db)
  else
    match db.magicTokens.find? (fun t => t.token = token ∧ t.email = jsToLower email) with
    | none => ({ success := false, error := some "Invalid or expired token" }, db)
    | some mt =>
      if now > mt.expiresAt then
        ({ success := false, error := some "Token has expired" }, db)
      else if mt.usedAt.isSome then
        ({ success := false, error := some "Token has already been used" }, db)
      else
        let db₁ :=
          { db with magicTokens := db.magicTokens.map fun (t : MagicToken) =>
              if t.id = mt.id then { t with usedAt := some now } else t }
        let (user, db₂) :=
          match db₁.users.find? (fun u => u.email = jsToLower email) with
          | some u => (u, db₁)
          | none =>
            let nu : User :=
              { id := freshUserId, email := jsToLower email, password := randomPassword
                createdAt := now, updatedAt := now }
            (nu, { db₁ with users := db₁.users ++ [nu] })
        let (s, db₃) :=
          createSession user.id sessionExpiryDays freshSessionId freshSessionToken now db₂
        ({ success := true, user := some user.toPublic, session := some s.toPublic }, db₃)

/-! ## Session resolution (`src/session.ts`) -/

/-- The object `getSessionByToken` returns on success: the session without
its token, plus the user without its password. -/
structure SessionWithUser where
  session : PublicSession
  user : PublicUser
deriving Repr, DecidableEq

/-- The `getSessionByToken` (`src/session.ts:69`): look the session up by
token; absent → `none`; `now` strictly past `expiresAt` → delete the row
by id and return `none`; otherwise resolve the user and return both,
stripped of token and password. -/
def getSessionByToken (token : Str) (now : Nat) (db : Db) :
    Option SessionWithUser × Db :=
  match db.sessions.find? (fun s => s.token = token) with
  | none => (none, db)
  | some s =>
    if now > s.expiresAt then
      (none, { db with sessions := db.sessions.filter (fun s' => s'.id ≠ s.id) })
    else
      match db.users.find? (fun u => u.id = s.userId) with
      | none => (none, db)
      | some u => (some ⟨s.toPublic, u.toPublic⟩, db)

/-! ## RBAC permission resolver (`src/features/rbac/index.ts`) -/

/-- One entry of the module-level `permissionCache`:
`userId ↦ (permissions, expiry timestamp)`. -/
structure CacheEntry where
  userId : Str
  permissions : List Str
  timestamp : Nat
deriving Repr, DecidableEq

/-- The `PermissionCheckResult` shape: `{ success, error?, hasPermission }`. -/
structure PermissionCheckResult where
  success : Bool
  error : Option String := none
  hasPermission : Bool
deriving Repr, DecidableEq

/-- The `UserPermissionsResult` shape: `{ success, error?, permissions?, roles? }`. -/
structure UserPermissionsResult where
  success : Bool
  error : Option String := none
  permissions : Option (List Str) := none
  roles : Option (List Role) := none
deriving Repr, DecidableEq

/-- The `getPermissionsFromCache` (`rbac/index.ts:719`): return the cached
permissions unless absent or expired; an expired entry is deleted. -/
def getPermissionsFromCache (userId : Str) (nowMs : Nat)
    (cache : List CacheEntry) : Option (List Str) × List CacheEntry :=
  match cache.find? (fun e => e.userId = userId) with
  | none => (none, cache)
  | some e =>
    if nowMs > e.timestamp then
      (none, cache.filter (fun e' => e'.userId ≠ userId))
    else
      (some e.permissions, cache)

/-- The `getUserRoles` (`rbac/index.ts:431`) restricted to its data flow: the
roles whose id appears among the user's assignments. -/
def getUserRolesList (userId : Str) (db : Db) : List Role :=
  let roleIds := (db.userRoles.filter (fun ur => ur.userId = userId)).map (·.roleId)
  db.roles.filter (fun r => roleIds.contains r.id)

/-- The `Set.add` insertion-order deduplication used by `getUserPermissions`:
`Array.from(new Set(...))` keeps the first occurrence of each element. -/
def addUnique (acc : List Str) (p : Str) : List Str :=
  if acc.contains p then acc else acc ++ [p]

/-- Collect all permissions of all roles, first occurrence first, as the
`Set`/`Array.from` pair does. -/
def collectPermissions (roles : List Role) : List Str :=
  roles.foldl (fun acc r => r.permissions.foldl addUnique acc) []

/-- The `getUserPermissions` (`rbac/index.ts:529`): consult the cache when
caching is on, otherwise take the union of the permissions of the user's
roles, cache it (expiry `now + cacheTTLSeconds`, default 300), and return
it together with the roles. -/
def getUserPermissions (userId : Str) (enabled cachePermissions : Bool)
    (cacheTTLSeconds : Option Nat) (nowMs : Nat) (db : Db)
    (cache : List CacheEntry) : UserPermissionsResult × List CacheEntry :=
  if ¬ enabled then
    ({ success := false, error := some "Role-based access control is not enabled" }, cache)
  else
    let cachedStep :=
      if cachePermissions then getPermissionsFromCache userId nowMs cache
      else (none, cache)
    match cachedStep with
    | (some perms, cache₁) => ({ success := true, permissions := some perms }, cache₁)
    | (none, cache₁) =>
      let roles := getUserRolesList userId db
      let permissions := collectPermissions roles
      let cache₂ :=
        if cachePermissions then
          cache₁.filter (fun e => e.userId ≠ userId) ++
            [⟨userId, permissions, nowMs + jsOr cacheTTLSeconds 300 * 1000⟩]
        else cache₁
      ({ success := true, permissions := some permissions, roles := some roles }, cache₂)

/-- The `checkUserPermission` (`rbac/index.ts:480`): consult the cache, else
recompute via `getUserPermissions`; the answer is a plain
`permissions.includes(permission)` membership test — the source gives the
wildcard entry `"*"` no special treatment. -/
def checkUserPermission (userId permission : Str) (enabled cachePermissions : Bool)
    (cacheTTLSeconds : Option Nat) (nowMs : Nat) (db : Db)
    (cache : List CacheEntry) : PermissionCheckResult × List CacheEntry :=
  if ¬ enabled then
    ({ success := false, error := some "Role-based access control is not enabled"
       hasPermission := false }, cache)
  else
    let cachedStep :=
      if cachePermissions then getPermissionsFromCache userId nowMs cache
      else (none, cache)
    match cachedStep with
    | (some perms, cache₁) =>
      ({ success := true, hasPermission := perms.contains permission }, cache₁)
    | (none, cache₁) =>
      let (res, cache₂) :=
        getUserPermissions userId enabled cachePermissions cacheTTLSeconds nowMs db cache₁
      if ¬ res.success then
        ({ success := false, error := res.error, hasPermission := false }, cache₂)
      else
        let permissions := res.permissions.getD []
        ({ success := true, hasPermission := permissions.contains permission }, cache₂)

/-! ## Shared concrete material for the theorems -/

/-- A stand-in for the external bcrypt hash: prefix-tagged, so it is
total, non-empty, and never equal to its input. -/
def demoHash (s : Str) : Str := "hash:".toList ++ s

/-- The compare function matching `demoHash`, standing in for
`bcrypt.compare`. -/
def demoCompare (p h : Str) : Bool := h = demoHash p

/-- Hashing with `demoHash` is non-trivial: a hash never equals its preimage (bcrypt
hashes carry a `$2b$…` prefix; the browser fallback a `browser-hash:`
prefix). -/
theorem demoHash_ne (p : Str) : demoHash p ≠ p := by
  intro h
  have := congrArg List.length h
  simp [demoHash] at this
  omega

/-- Hashing with `demoHash` never returns the empty string (a bcrypt hash or the
`browser-hash:`-prefixed fallback is never empty). -/
theorem demoHash_ne_nil (p : Str) : demoHash p ≠ [] := by
  simp [demoHash]

/-! ## C1 — wildcard permission -/

/-- Store for the C1 check: user `u1` holds one role, `admin`, whose
permission set is exactly the wildcard `["*"]` (the shape
`initializeDefaultRoles` creates). -/
def wildcardDb : Db :=
  { roles := [⟨"r1".toList, "admin".toList, "Administrator with full access".toList,
      ["*".toList], 0, 0⟩]
    userRoles := [⟨"a1".toList, "u1".toList, "r1".toList, 0, 0⟩] }

/-- C1: the claim says a role holding the wildcard permission makes
`checkUserPermission` return `hasPermission == true` for every permission
string.  The code disagrees: with the super-admin wildcard role assigned,
`checkUserPermission` answers `false` for `"content:write"`, because the
check is a literal `permissions.includes(permission)` with no wildcard
handling; `getUserPermissions` does return the union (here `["*"]`). -/
theorem checkUserPermission_wildcard_not_honored :
    (checkUserPermission "u1".toList "content:write".toList true true none 0
        wildcardDb []).1.hasPermission = false ∧
    (checkUserPermission "u1".toList "content:write".toList true true none 0
        wildcardDb []).1.success = true ∧
    (getUserPermissions "u1".toList true true none 0 wildcardDb []).1.permissions =
      some ["*".toList] := by
  decide

/-! ## C3 — recovery-code verification -/

/-- The shape of the source's own browser fallback for `hashPassword`
(`browser-hash:` followed by a hex digest); any bcrypt output is likewise
non-empty. -/
def demoBrowserHash (s : Str) : Str := "browser-hash:".toList ++ s

/-- C3: the claim says `verifyRecoveryCode` returns the index of the
stored hash matching the submitted code, `-1` when none matches.  The
code instead re-hashes the submitted code (`hashPassword(normalizedCode,
+hashedCodes[i])`) and treats the resulting non-empty string as a match,
so two different submitted codes both "match" index 0 of the same stored
hashes — the function's answer is independent of the stored hashes'
contents, and a recovery code "succeeds" any number of times. -/
theorem verifyRecoveryCode_matches_any_code :
    verifyRecoveryCode demoBrowserHash "AAAA-0000-0000".toList
      ["$2b$08$storedHashOne".toList, "$2b$08$storedHashTwo".toList] = 0 ∧
    verifyRecoveryCode demoBrowserHash "ZZZZ-9999-9999".toList
      ["$2b$08$storedHashOne".toList, "$2b$08$storedHashTwo".toList] = 0 ∧
    verifyRecoveryCode demoBrowserHash "ZZZZ-9999-9999".toList
      ["USED".toList, "$2b$08$storedHashTwo".toList] = 0 := by
  decide

/-! ## C8 — case-insensitive email uniqueness at registration -/

/-- C8: when some stored user already holds the lowercased email, a
register call fails with the duplicate-user error and leaves the store
untouched; and one registration step preserves pairwise distinctness of
stored emails. -/
theorem registerUser_duplicate_email_rejected
    (email password : Str) (hashFn : Str → Str) (sed : Option Nat)
    (fu fs ft : Str) (now : Nat) (db : Db)
    (hvalid : validateRegistrationInput email password = none) :
    ((∃ u ∈ db.users, u.email = jsToLower email) →
      registerUser email password hashFn sed fu fs ft now db =
        ({ success := false, error := some "User already exists" }, db))
    ∧ (List.Pairwise (fun a b : User => a.email ≠ b.email) db.users →
      List.Pairwise (fun a b : User => a.email ≠ b.email)
        (registerUser email password hashFn sed fu fs ft now db).2.users) := by
  constructor
  · rintro ⟨u, hu, hue⟩
    cases hf : db.users.find? (fun v => v.email = jsToLower email) with
    | none =>
      exfalso
      have := List.find?_eq_none.mp hf u hu
      simp [hue] at this
    | some v =>
      simp only [registerUser, hvalid, hf]
  · intro hpw
    cases hf : db.users.find? (fun v => v.email = jsToLower email) with
    | some v =>
      simp only [registerUser, hvalid, hf]
      exact hpw
    | none =>
      simp only [registerUser, hvalid, hf, createSession]
      rw [List.pairwise_append]
      refine ⟨hpw, List.pairwise_singleton _ _, ?_⟩
      intro a ha b hb
      simp only [List.mem_singleton] at hb
      subst hb
      have := List.find?_eq_none.mp hf a ha
      simpa using this

/-- Witness for C8 at a concrete input: `alice@x.com` is registered, and
a second registration as `ALICE@x.com` fails with the duplicate error
without touching the store. -/
theorem registerUser_duplicate_email_rejected_witness :
    registerUser "ALICE@x.com".toList "password123".toList demoHash none
      "u2".toList "s2".toList "t2".toList 7
      { users := [⟨"u1".toList, "alice@x.com".toList, demoHash "password123".toList, 0, 0⟩] } =
    ({ success := false, error := some "User already exists" },
      { users := [⟨"u1".toList, "alice@x.com".toList, demoHash "password123".toList, 0, 0⟩] }) := by
  have h := (registerUser_duplicate_email_rejected "ALICE@x.com".toList "password123".toList
    demoHash none "u2".toList "s2".toList "t2".toList 7
    { users := [⟨"u1".toList, "alice@x.com".toList, demoHash "password123".toList, 0, 0⟩] }
    (by decide)).1
  exact h ⟨_, List.mem_singleton.mpr rfl, by decide⟩

/-! ## C9 — account-enumeration resistance of password-reset requests -/

/-- C9: with a well-formed email, the feature enabled and email delivery
succeeding, `requestPasswordReset` returns the same full result value —
`{ success: true, emailSent: true }` — whether or not a user with that
email exists. -/
theorem requestPasswordReset_no_enumeration
    (email : Str) (texp : Option Nat) (fid ftok : Str) (now : Nat) (dbK dbU : Db)
    (hvalid : ¬ (email = [] ∨ ¬ email.contains '@' ∨ email.length < 5))
    (hknown : ∃ u ∈ dbK.users, u.email = jsToLower email)
    (hunknown : ∀ u ∈ dbU.users, u.email ≠ jsToLower email) :
    (requestPasswordReset email true texp fid ftok true now dbK).1 =
      { success := true, emailSent := some true } ∧
    (requestPasswordReset email true texp fid ftok true now dbU).1 =
      { success := true, emailSent := some true } := by
  obtain ⟨u, hu, hue⟩ := hknown
  constructor
  · unfold requestPasswordReset
    rw [if_neg (by simp), if_neg hvalid]
    cases hf : dbK.users.find? (fun v => v.email = jsToLower email) with
    | none =>
      exfalso
      have := List.find?_eq_none.mp hf u hu
      simp [hue] at this
    | some v => simp
  · unfold requestPasswordReset
    rw [if_neg (by simp), if_neg hvalid]
    have hf : dbU.users.find? (fun v => v.email = jsToLower email) = none :=
      List.find?_eq_none.mpr (fun v hv => by simpa using hunknown v hv)
    rw [hf]

/-- Witness for C9 at a concrete input: the same request against a store
that knows `alice@x.com` and against an empty store returns the same
success value. -/
theorem requestPasswordReset_no_enumeration_witness :
    (requestPasswordReset "alice@x.com".toList true none "i1".toList "t1".toList true 3
      { users := [⟨"u1".toList, "alice@x.com".toList, demoHash "password123".toList, 0, 0⟩] }).1 =
      { success := true, emailSent := some true } ∧
    (requestPasswordReset "alice@x.com".toList true none "i1".toList "t1".toList true 3
      {}).1 = { success := true, emailSent := some true } := by
  have h := requestPasswordReset_no_enumeration "alice@x.com".toList none "i1".toList
    "t1".toList 3
    { users := [⟨"u1".toList, "alice@x.com".toList, demoHash "password123".toList, 0, 0⟩] }
    {} (by decide) ⟨_, List.mem_singleton.mpr rfl, by decide⟩ (by intro u hu; simp at hu)
  exact h

/-! ## C7 — session resolution and lazy expiry -/

/-- C7: `getSessionByToken` returns `none` when no row matches the token;
when the matching row is past its expiry it returns `none` and deletes
exactly that row; hence no session is ever resolved after its `expiresAt`
— and successful reads leave the store unchanged, so prior reads cannot
extend a session's life. -/
theorem getSessionByToken_expiry_spec (token : Str) (now : Nat) (db : Db) :
    (db.sessions.find? (fun s => s.token = token) = none →
      getSessionByToken token now db = (none, db))
    ∧ (∀ s, db.sessions.find? (fun s' => s'.token = token) = some s →
      s.expiresAt < now →
      (getSessionByToken token now db).1 = none ∧
      (getSessionByToken token now db).2.sessions =
        db.sessions.filter (fun s' => s'.id ≠ s.id))
    ∧ (∀ r db', getSessionByToken token now db = (some r, db') → db' = db) := by
  refine ⟨?_, ?_, ?_⟩
  · intro hf
    simp only [getSessionByToken, hf]
  · intro s hf hexp
    have : now > s.expiresAt := hexp
    simp only [getSessionByToken, hf, if_pos this]
    simp
  · intro r db' h
    cases hf : db.sessions.find? (fun s => s.token = token) with
    | none => simp [getSessionByToken, hf] at h
    | some s =>
      by_cases hexp : now > s.expiresAt
      · simp [getSessionByToken, hf, hexp] at h
      · cases hu : db.users.find? (fun u => u.id = s.userId) with
        | none => simp [getSessionByToken, hf, hexp, hu] at h
        | some u =>
          simp only [getSessionByToken, hf, if_neg hexp, hu] at h
          exact (congrArg Prod.snd h).symm

/-- A store with a single expired session for the C7 witness. -/
def expiredSessionDb : Db :=
  { users := [⟨"u1".toList, "alice@x.com".toList, demoHash "password123".toList, 0, 0⟩]
    sessions := [⟨"s1".toList, "u1".toList, "tok".toList, 9, 0, 0⟩] }

/-- Witness for C7 at a concrete input: at time 10 a session that expired
at time 9 resolves to `none` and its row is removed. -/
theorem getSessionByToken_expiry_spec_witness :
    (getSessionByToken "tok".toList 10 expiredSessionDb).1 = none ∧
    (getSessionByToken "tok".toList 10 expiredSessionDb).2.sessions =
      expiredSessionDb.sessions.filter
        (fun s' => s'.id ≠ ("s1".toList : Str)) := by
  have h := (getSessionByToken_expiry_spec "tok".toList 10 expiredSessionDb).2.1
    ⟨"s1".toList, "u1".toList, "tok".toList, 9, 0, 0⟩ (by decide) (by decide)
  exact h

/-! ## C10 — two-factor verification without a challenge token -/

/-- C10: with the feature on, an enabled enrollment and a TOTP code the
verifier accepts, `verifyTwoFactorCode` succeeds when `challengeToken` is
absent from the input, and its answer does not depend on the challenge
table at all — the challenge lookup and expiry check run only when a
challenge token is supplied. -/
theorem verifyTwoFactorCode_succeeds_without_challenge
    (userId code : Str) (totpVerify : Str → Str → Bool) (hashFn : Str → Str)
    (now : Nat) (db : Db) (setup : TwoFactorSetup)
    (hsetup : db.twoFactorSetups.find? (fun s => s.userId = userId) = some setup)
    (henabled : setup.enabled = true)
    (htotp : totpVerify setup.secret code = true) :
    verifyTwoFactorCode userId code none totpVerify hashFn true now db =
      ({ success := true, verified := some true }, db) ∧
    ∀ cs : List Challenge,
      (verifyTwoFactorCode userId code none totpVerify hashFn true now
        { db with challenges := cs }).1 =
          { success := true, verified := some true } := by
  constructor
  · simp only [verifyTwoFactorCode, verifyTwoFactorCodeAfterChallenge, hsetup, henabled,
      htotp]
    simp
  · intro cs
    have hsetup' : ({ db with challenges := cs } : Db).twoFactorSetups.find?
        (fun s => s.userId = userId) = some setup := hsetup
    simp only [verifyTwoFactorCode, verifyTwoFactorCodeAfterChallenge, hsetup', henabled,
      htotp]
    simp

/-- A store with an enabled enrollment for the C10 witness; the TOTP
verifier stands in for otplib and accepts `123456` against `SECRET`. -/
def enrolledDb : Db :=
  { users := [⟨"u1".toList, "alice@x.com".toList, demoHash "password123".toList, 0, 0⟩]
    twoFactorSetups := [⟨"u1".toList, "SECRET".toList, true,
      ["$2b$08$recoveryHashOne".toList], some 0, 0, 0⟩] }

/-- The stand-in TOTP verifier for witnesses: accepts exactly `123456`
for `SECRET`. -/
def demoTotp (secret code : Str) : Bool :=
  secret = "SECRET".toList ∧ code = "123456".toList

/-- Witness for C10 at a concrete input: a valid TOTP code verifies with
no challenge token supplied, on an empty challenge table. -/
theorem verifyTwoFactorCode_succeeds_without_challenge_witness :
    verifyTwoFactorCode "u1".toList "123456".toList none demoTotp demoBrowserHash
      true 50 enrolledDb = ({ success := true, verified := some true }, enrolledDb) := by
  have h := (verifyTwoFactorCode_succeeds_without_challenge "u1".toList "123456".toList
    demoTotp demoBrowserHash 50 enrolledDb
    ⟨"u1".toList, "SECRET".toList, true, ["$2b$08$recoveryHashOne".toList], some 0, 0, 0⟩
    (by decide) (by decide) (by decide)).1
  exact h

/-! ## C2 — two-factor login and session issuance -/

/-- C2: the claim says a login by a two-factor-enabled user returns a
challenge result and does not issue a session.  The returned value indeed
carries `requiresTwoFactor` and the challenge token and no session key —
but the underlying core `loginUser` has already persisted a session row
(and handed its token to the cookie layer) before the enrollment check
runs: the sessions table grows from empty to one row for the user. -/
theorem loginUserWithTwoFactor_persists_session :
    (loginUserWithTwoFactor "alice@x.com".toList "password123".toList demoCompare true
        none none "s1".toList "stok".toList "c1".toList "ctok".toList 5 enrolledDb).1 =
      { success := true
        user := some ⟨"u1".toList, "alice@x.com".toList, 0, 0⟩
        requiresTwoFactor := true
        challengeToken := some "ctok".toList } ∧
    (loginUserWithTwoFactor "alice@x.com".toList "password123".toList demoCompare true
        none none "s1".toList "stok".toList "c1".toList "ctok".toList 5 enrolledDb).2.sessions =
      [⟨"s1".toList, "u1".toList, "stok".toList, 5 + daysToMs 30, 5, 5⟩] := by
  decide

/-! ## C5 — superseding of prior tokens at issue time -/

/-- Counterexample to C5: issuing a second magic-URL token for the same
email does not delete the first — after the second issue the store holds
two live (un-consumed, un-expired) tokens for `a@b.co`; likewise two
2FA challenges pile up for the same user.  The claim's "at most one live
token per subject per purpose after every issue operation" fails. -/
theorem issuing_token_keeps_prior_live_tokens :
    (((createMagicUrlLogin "a@b.co".toList true none [] "m2".toList "tokB".toList true 0
        (createMagicUrlLogin "a@b.co".toList true none [] "m1".toList "tokA".toList true 0
          {}).2).2.magicTokens.filter
      (fun t => t.email = "a@b.co".toList ∧ t.usedAt = none ∧ ¬ (0 > t.expiresAt))).length
        = 2) ∧
    (((createTwoFactorChallenge "u1".toList true none "c2".toList "chalB".toList 0
        (createTwoFactorChallenge "u1".toList true none "c1".toList "chalA".toList 0
          {}).2).2.challenges.filter
      (fun c => c.userId = "u1".toList ∧ ¬ (0 > c.expiresAt))).length = 2) := by
  decide

/-- C5 as amended: the superseding behaviour holds for the password-reset
flow only — `requestPasswordReset` deletes every prior reset token of the
user before inserting the fresh one, so exactly one reset token per user
remains after a request that found the user; magic-URL and 2FA-challenge
issuance insert without deleting. -/
theorem requestPasswordReset_supersedes_prior_tokens
    (email : Str) (texp : Option Nat) (fid ftok : Str) (emailSent : Bool)
    (now : Nat) (db : Db) (u : User)
    (hvalid : ¬ (email = [] ∨ ¬ email.contains '@' ∨ email.length < 5))
    (hfound : db.users.find? (fun v => v.email = jsToLower email) = some u) :
    ((requestPasswordReset email true texp fid ftok emailSent now db).2.resetTokens.filter
      (fun t => t.userId = u.id)).length = 1 := by
  have hres : (requestPasswordReset email true texp fid ftok emailSent now db).2.resetTokens
      = db.resetTokens.filter (fun t => t.userId ≠ u.id) ++
        [⟨fid, u.id, ftok, now + minutesToMs (jsOr texp 15), now, none⟩] := by
    simp only [requestPasswordReset, if_neg (by simp : ¬ ¬ True), if_neg hvalid, hfound]
    cases emailSent <;> simp
  rw [hres, List.filter_append]
  have hnil : (db.resetTokens.filter (fun t => t.userId ≠ u.id)).filter
      (fun t => t.userId = u.id) = [] := by
    rw [List.filter_eq_nil_iff]
    intro t ht
    have := List.of_mem_filter ht
    simpa using this
  rw [hnil]
  simp

/-- Witness for the amended C5 at a concrete input: a store already
holding two reset tokens for `u1` holds exactly one after a new request. -/
theorem requestPasswordReset_supersedes_prior_tokens_witness :
    ((requestPasswordReset "alice@x.com".toList true none "i3".toList "t3".toList true 8
      { users := [⟨"u1".toList, "alice@x.com".toList, demoHash "password123".toList, 0, 0⟩]
        resetTokens := [⟨"i1".toList, "u1".toList, "t1".toList, 900000, 0, none⟩,
          ⟨"i2".toList, "u1".toList, "t2".toList, 900000, 0, none⟩] }).2.resetTokens.filter
      (fun t => t.userId = ("u1".toList : Str))).length = 1 := by
  have h := requestPasswordReset_supersedes_prior_tokens "alice@x.com".toList none
    "i3".toList "t3".toList true 8
    { users := [⟨"u1".toList, "alice@x.com".toList, demoHash "password123".toList, 0, 0⟩]
      resetTokens := [⟨"i1".toList, "u1".toList, "t1".toList, 900000, 0, none⟩,
        ⟨"i2".toList, "u1".toList, "t2".toList, 900000, 0, none⟩] }
    ⟨"u1".toList, "alice@x.com".toList, demoHash "password123".toList, 0, 0⟩
    (by decide) (by decide)
  exact h

/-! ## C4 — single-use tokens: helpers -/

/-- Lookup lemma: `find?` commutes with a map that does not change the predicate's
verdict (row updates that keep the looked-up columns intact). -/
theorem find?_map_pres {α : Type} (f : α → α) (p : α → Bool) (l : List α)
    (hp : ∀ a, p (f a) = p a) : (l.map f).find? p = (l.find? p).map f := by
  rw [List.find?_map f l]
  have h : p ∘ f = p := funext hp
  rw [h]

/-- Anatomy of a successful `completePasswordReset`: the new password
passed validation, a user and an un-expired, un-consumed token row were
found, and the post-state is the input store with the user's password
overwritten and every row carrying the token value marked used. -/
theorem completePasswordReset_success_shape
    (t e p : Str) (ml : Option Nat) (hashFn : Str → Str) (now : Nat) (db : Db)
    (h : (completePasswordReset t e p true ml hashFn now db).1.success = true) :
    ¬ (p = [] ∨ p.length < jsOr ml 8) ∧
    ∃ user rt,
      db.users.find? (fun v => v.email = jsToLower e) = some user ∧
      db.resetTokens.find?
        (fun x => decide (x.token = t) && decide (x.userId = user.id)) = some rt ∧
      ¬ now > rt.expiresAt ∧ rt.usedAt = none ∧
      (completePasswordReset t e p true ml hashFn now db).2 =
        { db with
            users := db.users.map fun (u : User) =>
              if u.id = user.id then { u with password := hashFn p, updatedAt := now }
              else u
            resetTokens := db.resetTokens.map fun (x : ResetToken) =>
              if x.token = t then { x with usedAt := some now } else x } := by
  by_cases hval : (p = [] ∨ p.length < jsOr ml 8)
  · exfalso
    simp [completePasswordReset, hval] at h
  · refine ⟨hval, ?_⟩
    cases hu : db.users.find? (fun v => v.email = jsToLower e) with
    | none =>
      exfalso
      simp [completePasswordReset, hval, verifyPasswordResetToken, hu] at h
    | some user =>
      cases hrt : db.resetTokens.find?
          (fun x => decide (x.token = t) && decide (x.userId = user.id)) with
      | none =>
        exfalso
        simp [completePasswordReset, hval, verifyPasswordResetToken, hu, hrt] at h
      | some rt =>
        by_cases hexp : now > rt.expiresAt
        · exfalso
          simp [completePasswordReset, hval, verifyPasswordResetToken, hu, hrt, hexp] at h
        · by_cases hused : rt.usedAt.isSome
          · exfalso
            simp [completePasswordReset, hval, verifyPasswordResetToken, hu, hrt, hexp,
              hused] at h
          · refine ⟨user, rt, rfl, hrt, hexp, Option.not_isSome_iff_eq_none.mp hused, ?_⟩
            simp [completePasswordReset, hval, verifyPasswordResetToken, hu, hrt, hexp,
              hused]

/-- Once the token row a `completePasswordReset` lookup finds is marked
used, the call fails — with the already-used error whenever the row is
not yet expired and the password passes validation. -/
theorem completePasswordReset_fails_on_used
    (t e p' : Str) (ml : Option Nat) (h2 : Str → Str) (now' : Nat) (db' : Db)
    (user' : User) (rt' : ResetToken)
    (hu' : db'.users.find? (fun v => v.email = jsToLower e) = some user')
    (hrt' : db'.resetTokens.find?
      (fun x => decide (x.token = t) && decide (x.userId = user'.id)) = some rt')
    (hused' : rt'.usedAt.isSome) :
    (completePasswordReset t e p' true ml h2 now' db').1.success = false ∧
    (¬ now' > rt'.expiresAt → ¬ (p' = [] ∨ p'.length < jsOr ml 8) →
      (completePasswordReset t e p' true ml h2 now' db').1 =
        { success := false, error := some "Token has already been used" }) := by
  constructor
  · by_cases hval : (p' = [] ∨ p'.length < jsOr ml 8)
    · simp [completePasswordReset, hval]
    · by_cases hexp : now' > rt'.expiresAt
      · simp [completePasswordReset, hval, verifyPasswordResetToken, hu', hrt', hexp]
      · simp [completePasswordReset, hval, verifyPasswordResetToken, hu', hrt', hexp,
          hused']
  · intro hexp hval
    simp [completePasswordReset, hval, verifyPasswordResetToken, hu', hrt', hexp, hused']

/-- Anatomy of a successful `verifyMagicUrlToken`: an un-expired,
un-consumed token row was found, and in the post-state every row with its
id is marked used. -/
theorem verifyMagicUrlToken_success_shape
    (tm em rp fu fs ftk : Str) (sed : Option Nat) (mnow : Nat) (mdb : Db)
    (h : (verifyMagicUrlToken tm em true rp fu fs ftk sed mnow mdb).1.success = true) :
    ∃ mt, mdb.magicTokens.find?
        (fun x => decide (x.token = tm) && decide (x.email = jsToLower em)) = some mt ∧
      ¬ mnow > mt.expiresAt ∧ mt.usedAt = none ∧
      (verifyMagicUrlToken tm em true rp fu fs ftk sed mnow mdb).2.magicTokens =
        mdb.magicTokens.map fun (x : MagicToken) =>
          if x.id = mt.id then { x with usedAt := some mnow } else x := by
  cases hmt : mdb.magicTokens.find?
      (fun x => decide (x.token = tm) && decide (x.email = jsToLower em)) with
  | none =>
    exfalso
    simp [verifyMagicUrlToken, hmt] at h
  | some mt =>
    by_cases hexp : mnow > mt.expiresAt
    · exfalso
      simp [verifyMagicUrlToken, hmt, hexp] at h
    · by_cases hused : mt.usedAt.isSome
      · exfalso
        simp [verifyMagicUrlToken, hmt, hexp, hused] at h
      · refine ⟨mt, rfl, hexp, Option.not_isSome_iff_eq_none.mp hused, ?_⟩
        cases hx : mdb.users.find? (fun u => u.email = jsToLower em) with
        | none => simp [verifyMagicUrlToken, hmt, hexp, hused, createSession, hx]
        | some u => simp [verifyMagicUrlToken, hmt, hexp, hused, createSession, hx]

/-- Once the magic-URL row a lookup finds is marked used, the call fails —
with the already-used error whenever the row is not yet expired. -/
theorem verifyMagicUrlToken_fails_on_used
    (tm em rp2 fu2 fs2 ftk2 : Str) (sed2 : Option Nat) (now' : Nat) (db' : Db)
    (mt' : MagicToken)
    (hmt' : db'.magicTokens.find?
      (fun x => decide (x.token = tm) && decide (x.email = jsToLower em)) = some mt')
    (hused' : mt'.usedAt.isSome) :
    (verifyMagicUrlToken tm em true rp2 fu2 fs2 ftk2 sed2 now' db').1.success = false ∧
    (¬ now' > mt'.expiresAt →
      (verifyMagicUrlToken tm em true rp2 fu2 fs2 ftk2 sed2 now' db').1 =
        { success := false, error := some "Token has already been used" }) := by
  constructor
  · by_cases hexp : now' > mt'.expiresAt
    · simp [verifyMagicUrlToken, hmt', hexp]
    · simp [verifyMagicUrlToken, hmt', hexp, hused']
  · intro hexp
    simp [verifyMagicUrlToken, hmt', hexp, hused']

/-- C4: single-use tokens.  After a successful redemption (password-reset
completion, magic-URL verification), an immediate retry with the same
token fails with the already-used error, and any later retry — whatever
time, password or fresh identifiers it uses — fails as well. -/
theorem singleUseToken_redeemed_at_most_once
    (t e p : Str) (ml : Option Nat) (hashFn hashFn' : Str → Str) (now : Nat) (db : Db)
    (tm em rp rp' fu fu' fs fs' ftk ftk' : Str) (sed sed' : Option Nat)
    (mnow : Nat) (mdb : Db)
    (hR : (completePasswordReset t e p true ml hashFn now db).1.success = true)
    (hM : (verifyMagicUrlToken tm em true rp fu fs ftk sed mnow mdb).1.success = true) :
    ((completePasswordReset t e p true ml hashFn' now
        (completePasswordReset t e p true ml hashFn now db).2).1 =
      { success := false, error := some "Token has already been used" })
    ∧ (∀ (now' : Nat) (p' : Str) (h2 : Str → Str),
      (completePasswordReset t e p' true ml h2 now'
        (completePasswordReset t e p true ml hashFn now db).2).1.success = false)
    ∧ ((verifyMagicUrlToken tm em true rp' fu' fs' ftk' sed' mnow
        (verifyMagicUrlToken tm em true rp fu fs ftk sed mnow mdb).2).1 =
      { success := false, error := some "Token has already been used" })
    ∧ (∀ (now' : Nat) (rp2 fu2 fs2 ftk2 : Str) (sed2 : Option Nat),
      (verifyMagicUrlToken tm em true rp2 fu2 fs2 ftk2 sed2 now'
        (verifyMagicUrlToken tm em true rp fu fs ftk sed mnow mdb).2).1.success = false) := by
  obtain ⟨hval, user, rt, hu, hrt, hexp, hused0, hdb⟩ :=
    completePasswordReset_success_shape t e p ml hashFn now db hR
  obtain ⟨mt, hmt, hmexp, hmused0, hmdb⟩ :=
    verifyMagicUrlToken_success_shape tm em rp fu fs ftk sed mnow mdb hM
  have hrttok : rt.token = t := by
    have h1 := List.find?_some hrt
    simp at h1
    exact h1.1
  have hu2 : (completePasswordReset t e p true ml hashFn now db).2.users.find?
      (fun v => v.email = jsToLower e)
        = some { user with password := hashFn p, updatedAt := now } := by
    rw [hdb]
    show (db.users.map fun (u : User) =>
        if u.id = user.id then { u with password := hashFn p, updatedAt := now }
        else u).find? (fun v => v.email = jsToLower e) = _
    rw [find?_map_pres
      (fun (u : User) =>
        if u.id = user.id then { u with password := hashFn p, updatedAt := now } else u)
      (fun v => decide (v.email = jsToLower e)) db.users
      (by intro a; by_cases hh : a.id = user.id <;> simp [hh]), hu]
    simp
  have hrt2 : (completePasswordReset t e p true ml hashFn now db).2.resetTokens.find?
      (fun x => decide (x.token = t) && decide (x.userId = user.id))
        = some { rt with usedAt := some now } := by
    rw [hdb]
    show (db.resetTokens.map fun (x : ResetToken) =>
        if x.token = t then { x with usedAt := some now } else x).find?
        (fun x => decide (x.token = t) && decide (x.userId = user.id)) = _
    rw [find?_map_pres
      (fun (x : ResetToken) => if x.token = t then { x with usedAt := some now } else x)
      (fun x => decide (x.token = t) && decide (x.userId = user.id)) db.resetTokens
      (by intro x; by_cases hh : x.token = t <;> simp [hh]), hrt]
    simp [hrttok]
  have hmt2 : (verifyMagicUrlToken tm em true rp fu fs ftk sed mnow mdb).2.magicTokens.find?
      (fun x => decide (x.token = tm) && decide (x.email = jsToLower em))
        = some { mt with usedAt := some mnow } := by
    rw [hmdb]
    rw [find?_map_pres
      (fun (x : MagicToken) => if x.id = mt.id then { x with usedAt := some mnow } else x)
      (fun x => decide (x.token = tm) && decide (x.email = jsToLower em)) mdb.magicTokens
      (by intro x; by_cases hh : x.id = mt.id <;> simp [hh]), hmt]
    simp
  refine ⟨?_, ?_, ?_, ?_⟩
  · exact (completePasswordReset_fails_on_used t e p ml hashFn' now _
      { user with password := hashFn p, updatedAt := now }
      { rt with usedAt := some now } hu2 hrt2 (by simp)).2 hexp hval
  · intro now' p' h2
    exact (completePasswordReset_fails_on_used t e p' ml h2 now' _
      { user with password := hashFn p, updatedAt := now }
      { rt with usedAt := some now } hu2 hrt2 (by simp)).1
  · exact (verifyMagicUrlToken_fails_on_used tm em rp' fu' fs' ftk' sed' mnow _
      { mt with usedAt := some mnow } hmt2 (by simp)).2 hmexp
  · intro now' rp2 fu2 fs2 ftk2 sed2
    exact (verifyMagicUrlToken_fails_on_used tm em rp2 fu2 fs2 ftk2 sed2 now' _
      { mt with usedAt := some mnow } hmt2 (by simp)).1

/-- A store for the C4 witness: user `alice@x.com` with a pending reset
token, and a magic-URL token for `bob@y.co`. -/
def singleUseDb : Db :=
  { users := [⟨"u1".toList, "alice@x.com".toList, demoHash "password123".toList, 0, 0⟩]
    resetTokens := [⟨"i1".toList, "u1".toList, "rtok".toList, 900000, 0, none⟩]
    magicTokens := [⟨"m1".toList, "bob@y.co".toList, "mtok".toList, 600000, 0, none, []⟩] }

/-- Witness for C4 at a concrete input: both redemptions succeed once and
the immediate retries fail with the already-used error. -/
theorem singleUseToken_redeemed_at_most_once_witness :
    ((completePasswordReset "rtok".toList "alice@x.com".toList "newpassword1".toList true
        none demoHash 5
        (completePasswordReset "rtok".toList "alice@x.com".toList "newpassword1".toList true
          none demoHash 5 singleUseDb).2).1 =
      { success := false, error := some "Token has already been used" }) ∧
    ((verifyMagicUrlToken "mtok".toList "bob@y.co".toList true "rnd2".toList "u3".toList
        "s3".toList "stok3".toList none 5
        (verifyMagicUrlToken "mtok".toList "bob@y.co".toList true "rnd".toList "u2".toList
          "s2".toList "stok2".toList none 5 singleUseDb).2).1 =
      { success := false, error := some "Token has already been used" }) := by
  have h := singleUseToken_redeemed_at_most_once "rtok".toList "alice@x.com".toList
    "newpassword1".toList none demoHash demoHash 5 singleUseDb
    "mtok".toList "bob@y.co".toList "rnd".toList "rnd2".toList "u2".toList "u3".toList
    "s2".toList "s3".toList "stok2".toList "stok3".toList none none 5 singleUseDb
    (by decide) (by decide)
  exact ⟨h.1, h.2.2.1⟩

/-- C6: password hygiene.  Under any hash function that never returns its
input unchanged (bcrypt), a successful registration stores exactly the
hash of the submitted password — never the plaintext — and every user
object a flow returns (registration, login, magic-URL redemption, session
resolution) is the `toPublic` projection of a stored row, a record type
with no password field at all. -/
theorem password_never_stored_or_returned_plain
    (hashFn : Str → Str) (hhash : ∀ q, hashFn q ≠ q) :
    (∀ (email password fu fs ft : Str) (sed : Option Nat) (now : Nat) (db : Db),
      (registerUser email password hashFn sed fu fs ft now db).1.success = true →
      ∃ stored ∈ (registerUser email password hashFn sed fu fs ft now db).2.users,
        (registerUser email password hashFn sed fu fs ft now db).1.user =
          some stored.toPublic ∧
        stored.password = hashFn password ∧ stored.password ≠ password)
    ∧ (∀ (email password fs ft : Str) (cmp : Str → Str → Bool) (sed : Option Nat)
        (now : Nat) (db : Db) (pu : PublicUser),
      (loginUser email password cmp sed fs ft now db).1.user = some pu →
      ∃ stored ∈ db.users, pu = stored.toPublic)
    ∧ (∀ (tk e rp fu fs ftk : Str) (sed : Option Nat) (now : Nat) (db : Db)
        (pu : PublicUser),
      (verifyMagicUrlToken tk e true rp fu fs ftk sed now db).1.user = some pu →
      ∃ stored ∈ (verifyMagicUrlToken tk e true rp fu fs ftk sed now db).2.users,
        pu = stored.toPublic)
    ∧ (∀ (token : Str) (now : Nat) (db : Db) (r : SessionWithUser),
      (getSessionByToken token now db).1 = some r →
      ∃ stored ∈ db.users, r.user = stored.toPublic) := by
  refine ⟨?_, ?_, ?_, ?_⟩
  · intro email password fu fs ft sed now db hsucc
    cases hv : validateRegistrationInput email password with
    | some err => simp [registerUser, hv] at hsucc
    | none =>
      cases hf : db.users.find? (fun u => u.email = jsToLower email) with
      | some u => simp [registerUser, hv, hf] at hsucc
      | none =>
        refine ⟨⟨fu, jsToLower email, hashFn password, now, now⟩, ?_, ?_, rfl,
          hhash password⟩
        · simp [registerUser, hv, hf, createSession]
        · simp [registerUser, hv, hf, createSession]
  · intro email password fs ft cmp sed now db pu hpu
    cases hv : validateLoginInput email password with
    | some err => simp [loginUser, hv] at hpu
    | none =>
      cases hf : db.users.find? (fun u => u.email = jsToLower email) with
      | none => simp [loginUser, hv, hf] at hpu
      | some u =>
        by_cases hc : cmp password u.password
        · refine ⟨u, List.mem_of_find?_eq_some hf, ?_⟩
          simp [loginUser, hv, hf, hc, createSession] at hpu
          exact hpu.symm
        · simp [loginUser, hv, hf, hc] at hpu
  · intro tk e rp fu fs ftk sed now db pu hpu
    cases hmt : db.magicTokens.find?
        (fun x => decide (x.token = tk) && decide (x.email = jsToLower e)) with
    | none => simp [verifyMagicUrlToken, hmt] at hpu
    | some mt =>
      by_cases hexp : now > mt.expiresAt
      · simp [verifyMagicUrlToken, hmt, hexp] at hpu
      · by_cases hused : mt.usedAt.isSome
        · simp [verifyMagicUrlToken, hmt, hexp, hused] at hpu
        · cases hfu : db.users.find? (fun u => u.email = jsToLower e) with
          | some u =>
            refine ⟨u, ?_, ?_⟩
            · have hm := List.mem_of_find?_eq_some hfu
              simp [verifyMagicUrlToken, hmt, hexp, hused, hfu, createSession]
              exact hm
            · simp [verifyMagicUrlToken, hmt, hexp, hused, hfu, createSession] at hpu
              exact hpu.symm
          | none =>
            refine ⟨⟨fu, jsToLower e, rp, now, now⟩, ?_, ?_⟩
            · simp [verifyMagicUrlToken, hmt, hexp, hused, hfu, createSession]
            · simp [verifyMagicUrlToken, hmt, hexp, hused, hfu, createSession] at hpu
              exact hpu.symm
  · intro token now db r hr
    cases hf : db.sessions.find? (fun s => s.token = token) with
    | none => simp [getSessionByToken, hf] at hr
    | some s =>
      by_cases hexp : now > s.expiresAt
      · simp [getSessionByToken, hf, hexp] at hr
      · cases hu : db.users.find? (fun u => u.id = s.userId) with
        | none => simp [getSessionByToken, hf, hexp, hu] at hr
        | some u =>
          refine ⟨u, List.mem_of_find?_eq_some hu, ?_⟩
          simp [getSessionByToken, hf, hexp, hu] at hr
          rw [← hr]

/-- Witness for C6 at a concrete input: registering `alice@x.com` with
`password123` stores the hash-tagged password, never the plaintext, and
returns the projection without the password field. -/
theorem password_never_stored_or_returned_plain_witness :
    ∃ stored ∈ (registerUser "alice@x.com".toList "password123".toList demoHash none
        "u1".toList "s1".toList "t1".toList 0 {}).2.users,
      (registerUser "alice@x.com".toList "password123".toList demoHash none
        "u1".toList "s1".toList "t1".toList 0 {}).1.user = some stored.toPublic ∧
      stored.password = demoHash "password123".toList ∧
      stored.password ≠ "password123".toList :=
  (password_never_stored_or_returned_plain demoHash demoHash_ne).1
    "alice@x.com".toList "password123".toList "u1".toList "s1".toList "t1".toList
    none 0 {} (by decide)

end NextAuthSimple






